import Mathlib

/-!
Verification of the pylammpsmpi wrapper specification.

The repository's wrapper class `LammpsBase` is a thin pass-through to an
MPI-parallel LAMMPS engine instance.  The wrapper implementation itself is not
part of the analysed sources (only its tests and packaging are), so the model
below is built from the specification's description of the wrapper: every
public operation is a one-to-one forwarding call to the underlying engine API,
returned unmodified or trivially reshaped into an array.
-/

/-- Values returned by the engine API: a scalar, a flat numeric array, a
nested per-atom array, an integer array, or nothing (undefined query). -/
inductive LValue where
  | num : ℚ → LValue
  | arr : List ℚ → LValue
  | natArr : List Nat → LValue
  | none : LValue
deriving DecidableEq

/-- Errors surfaced by the engine library. -/
inductive LmpError where
  | fileNotFoundError : String → LmpError
deriving DecidableEq

/-- Modelled from the spec: the engine build's feature flags, forwarded
unchanged by the wrapper's capability properties. -/
structure BuildFlags where
  hasExceptions : Bool
  hasGzipSupport : Bool
  hasPngSupport : Bool
  hasJpegSupport : Bool
  hasFfmpegSupport : Bool
deriving DecidableEq

/-- The feature flags of the wrapped engine build used by the test suite. -/
def wrappedBuild : BuildFlags :=
  { hasExceptions := true
    hasGzipSupport := true
    hasPngSupport := true
    hasJpegSupport := true
    hasFfmpegSupport := false }

/-- Modelled from the spec: the state of the underlying simulation engine as
seen through its library API — per-atom arrays indexed by quantity name and
0-based atom index (atom ids are 1-based), the simulation box
(bounds, tilt factors, periodicity, change flag), named computes and
variables, and the build's feature flags.  The wrapper owns none of this
data; it only forwards. -/
structure Engine where
  natoms : Nat
  perAtom : String → Nat → List ℚ
  boxlo : List ℚ
  boxhi : List ℚ
  xy : ℚ
  yz : ℚ
  xz : ℚ
  periodicity : List Nat
  boxChange : ℚ
  computeScalar : String → ℚ
  computePerAtom : String → Nat → ℚ
  varScalar : String → String → ℚ
  varPerAtom : String → String → Nat → ℚ
  build : BuildFlags

/-- The per-atom force value of atom `i` produced by the fixed input script
`in.simple` (only the entries pinned by the test suite are distinguished). -/
def fval (i : Nat) : ℚ := if i = 0 then -263/1000 else if i = 234 then 31/100 else 0

/-- Per-atom data of the engine after running the fixed script `in.simple`:
atom ids are `i + 1`, forces are `fval`. -/
def simplePerAtom (name : String) (i : Nat) : List ℚ :=
  if name = "id" then [((i : ℚ) + 1)]
  else if name = "f" then [fval i, 0, 0]
  else [0]

/-- The upper box bound produced by the fixed script `in.simple`. -/
def boxhiSimple : ℚ := 6718384765530029 / 1000000000000000

/-- The scalar value of the temperature variable `tt` (and of the global
temperature compute) for the fixed script `in.simple`. -/
def ttSimple : ℚ := 11298532212880312 / 10000000000000000

/-- Modelled from the spec: the engine state after running the fixed input
script `in.simple` — 256 atoms, an orthogonal periodic box from 0 to
`boxhiSimple`, and the compute/variable values pinned by the test suite. -/
def simpleState : Engine where
  natoms := 256
  perAtom := simplePerAtom
  boxlo := [0, 0, 0]
  boxhi := [boxhiSimple, boxhiSimple, boxhiSimple]
  xy := 0
  yz := 0
  xz := 0
  periodicity := [1, 1, 1]
  boxChange := 0
  computeScalar := fun _ => ttSimple
  computePerAtom := fun _ i => fval i * fval i
  varScalar := fun name _ => if name = "tt" then ttSimple else 0
  varPerAtom := fun name _ i => if name = "fx" then fval i else 0
  build := wrappedBuild

/-- Modelled from the spec: a freshly started engine instance of the wrapped
build, before any input script is loaded. -/
def initEngine : Engine where
  natoms := 0
  perAtom := fun _ _ => []
  boxlo := [0, 0, 0]
  boxhi := [1, 1, 1]
  xy := 0
  yz := 0
  xz := 0
  periodicity := [1, 1, 1]
  boxChange := 0
  computeScalar := fun _ => 0
  computePerAtom := fun _ _ => 0
  varScalar := fun _ _ => 0
  varPerAtom := fun _ _ _ => 0
  build := wrappedBuild

/-- Modelled from the spec: running an input script on the engine.  The fixed
script `in.simple` produces `simpleState`; other scripts are left abstract
(they do not occur in the analysed sources). -/
def runScript (path : String) (e : Engine) : Engine :=
  if path = "in.simple" then simpleState else e

/-- Modelled from the spec: the engine's `file` call loads an input script and
raises the engine's own `FileNotFoundError` when the path does not name an
existing file.  The filesystem is modelled as the list of existing paths. -/
def Engine.runFile (e : Engine) (fs : List String) (path : String) :
    Except LmpError Engine :=
  if path ∈ fs then .ok (runScript path e) else .error (.fileNotFoundError path)

/-- Overwrite per-atom rows according to a scatter request: atom id `i` (the
head of the id list) receives the corresponding data row; ids not listed keep
their old value.  `j` is the 0-based atom index being read back. -/
def applyScatter : List Nat → List (List ℚ) → (Nat → List ℚ) → Nat → List ℚ
  | i :: is, d :: ds, old, j => if j + 1 = i then d else applyScatter is ds old j
  | _, _, old, j => old j

/-- Modelled from the spec: the engine's gather for an explicit 1-based id
list — one data row per requested atom, in the order of the id list. -/
def Engine.gatherIds (e : Engine) (name : String) (ids : List Nat) :
    List (List ℚ) :=
  ids.map (fun i => e.perAtom name (i - 1))

/-- Modelled from the spec: the engine's scatter for an explicit 1-based id
list — each listed atom's row of quantity `name` is replaced by the
corresponding caller-provided row. -/
def Engine.scatterIds (e : Engine) (name : String) (data : List (List ℚ))
    (ids : List Nat) : Engine :=
  { e with perAtom := fun n j =>
      if n = name then applyScatter ids data (e.perAtom n) j else e.perAtom n j }

/-- The id list meaning "all atoms": 1-based ids 1, …, natoms. -/
def allIds (n : Nat) : List Nat := (List.range n).map (· + 1)

/-- Modelled from the spec: the wrapper object — process-pool startup
parameters plus the handle to the engine instance running on the workers. -/
structure LammpsBase where
  cores : Nat
  oversubscribe : Bool
  working_directory : String
  engine : Engine

/-- The first path following a `-cite` flag in the engine command line. -/
def citeFile : List String → Option String
  | [] => Option.none
  | "-cite" :: p :: _ => Option.some p
  | _ :: rest => citeFile rest

/-- Modelled from the spec: files written by engine startup — a `-cite`
command-line argument makes the engine write a citation file at the given
path.  Returns the updated filesystem. -/
def engineWrittenFiles (cmdargs : List String) (fs : List String) :
    List String :=
  match citeFile cmdargs with
  | Option.some p => p :: fs
  | Option.none => fs

/-- Modelled from the spec: the `LammpsBase` constructor — records the
process-pool startup parameters, starts a fresh engine instance on the
workers passing `cmdargs` through to it, and returns the wrapper together
with the filesystem after engine startup. -/
def LammpsBase.create (cores : Nat) (oversubscribe : Bool)
    (working_directory : String) (cmdargs : List String) (fs : List String) :
    LammpsBase × List String :=
  ({ cores := cores
     oversubscribe := oversubscribe
     working_directory := working_directory
     engine := initEngine },
   engineWrittenFiles cmdargs fs)

/-- Modelled from the spec: `LammpsBase.file` forwards to the engine's file
call and surfaces the engine's own exception unchanged. -/
def LammpsBase.file (l : LammpsBase) (fs : List String) (path : String) :
    Except LmpError LammpsBase :=
  (l.engine.runFile fs path).map (fun e => { l with engine := e })

/-- Modelled from the spec: `get_natoms` forwards the engine's atom count. -/
def LammpsBase.get_natoms (l : LammpsBase) : Nat := l.engine.natoms

/-- Modelled from the spec: the `natoms` property is an alias for
`get_natoms()`. -/
def LammpsBase.natoms (l : LammpsBase) : Nat := l.get_natoms

/-- Modelled from the spec: `extract_atom` returns the engine's per-atom
array for the named quantity, one row per atom. -/
def LammpsBase.extract_atom (l : LammpsBase) (name : String) :
    List (List ℚ) :=
  (List.range l.engine.natoms).map (l.engine.perAtom name)

/-- Modelled from the spec: `gather_atoms` without an id list gathers all
atoms in id order. -/
def LammpsBase.gather_atoms (l : LammpsBase) (name : String) :
    List (List ℚ) :=
  l.engine.gatherIds name (allIds l.engine.natoms)

/-- Modelled from the spec: `gather_atoms` restricted to an id list. -/
def LammpsBase.gather_atoms_ids (l : LammpsBase) (name : String)
    (ids : List Nat) : List (List ℚ) :=
  l.engine.gatherIds name ids

/-- Modelled from the spec: `scatter_atoms` without an id list distributes
one row per atom, in id order. -/
def LammpsBase.scatter_atoms (l : LammpsBase) (name : String)
    (data : List (List ℚ)) : LammpsBase :=
  { l with engine := l.engine.scatterIds name data (allIds l.engine.natoms) }

/-- Modelled from the spec: `scatter_atoms` restricted to an id list. -/
def LammpsBase.scatter_atoms_ids (l : LammpsBase) (name : String)
    (data : List (List ℚ)) (ids : List Nat) : LammpsBase :=
  { l with engine := l.engine.scatterIds name data ids }

/-- Modelled from the spec: `extract_compute` — style 0 / type 0 is a global
scalar, style 1 / type 1 a per-atom array with one entry per atom; other
combinations do not occur in the analysed sources. -/
def LammpsBase.extract_compute (l : LammpsBase) (name : String)
    (style typ : Nat) : LValue :=
  match style, typ with
  | 0, 0 => .num (l.engine.computeScalar name)
  | 1, 1 => .arr ((List.range l.engine.natoms).map (l.engine.computePerAtom name))
  | _, _ => .none

/-- Modelled from the spec: `extract_variable` — style 0 is a global scalar,
style 1 a per-atom array with one entry per atom. -/
def LammpsBase.extract_variable (l : LammpsBase) (name group : String)
    (style : Nat) : LValue :=
  match style with
  | 0 => .num (l.engine.varScalar name group)
  | 1 => .arr ((List.range l.engine.natoms).map (l.engine.varPerAtom name group))
  | _ => .none

/-- Modelled from the spec: `extract_box` forwards the engine's 7-element box
description: lower bounds, upper bounds, the three tilt factors, the
periodicity flags and the box-change flag. -/
def LammpsBase.extract_box (l : LammpsBase) : List LValue :=
  [.arr l.engine.boxlo, .arr l.engine.boxhi, .num l.engine.xy,
   .num l.engine.yz, .num l.engine.xz, .natArr l.engine.periodicity,
   .num l.engine.boxChange]

/-- Modelled from the spec: `reset_box` forwards new bounds and tilt factors
to the engine. -/
def LammpsBase.reset_box (l : LammpsBase) (lo hi : List ℚ) (xy yz xz : ℚ) :
    LammpsBase :=
  { l with engine :=
      { l.engine with boxlo := lo, boxhi := hi, xy := xy, yz := yz, xz := xz } }

/-- Modelled from the spec: `extract_global` forwards named global engine
state; `boxlo` and `boxhi` are the box bound triples. -/
def LammpsBase.extract_global (l : LammpsBase) (name : String) : LValue :=
  if name = "boxlo" then .arr l.engine.boxlo
  else if name = "boxhi" then .arr l.engine.boxhi
  else .none

/-- Modelled from the spec: capability properties forward the engine build's
feature flags unchanged. -/
def LammpsBase.has_exceptions (l : LammpsBase) : Bool :=
  l.engine.build.hasExceptions

/-- Modelled from the spec: gzip capability flag of the engine build. -/
def LammpsBase.has_gzip_support (l : LammpsBase) : Bool :=
  l.engine.build.hasGzipSupport

/-- Modelled from the spec: png capability flag of the engine build. -/
def LammpsBase.has_png_support (l : LammpsBase) : Bool :=
  l.engine.build.hasPngSupport

/-- Modelled from the spec: jpeg capability flag of the engine build. -/
def LammpsBase.has_jpeg_support (l : LammpsBase) : Bool :=
  l.engine.build.hasJpegSupport

/-- Modelled from the spec: ffmpeg capability flag of the engine build. -/
def LammpsBase.has_ffmpeg_support (l : LammpsBase) : Bool :=
  l.engine.build.hasFfmpegSupport

/-- The wrapper instance used by the test suite after loading `in.simple`. -/
def simpleBase : LammpsBase :=
  { cores := 1
    oversubscribe := false
    working_directory := "."
    engine := simpleState }

/-- Rounding to two decimal places, as used by the test assertions. -/
def round2 (q : ℚ) : ℚ := (round (100 * q) : ℤ) / 100

/-- A scattered id list is read back unchanged: mapping each listed id through
`applyScatter` returns exactly the caller-provided data, provided the ids are
distinct, 1-based, and the data has one row per id. -/
theorem applyScatter_map_eq : ∀ (ids : List Nat) (data : List (List ℚ))
    (old : Nat → List ℚ), ids.Nodup → (∀ i ∈ ids, 1 ≤ i) →
    data.length = ids.length →
    ids.map (fun i => applyScatter ids data old (i - 1)) = data
  | [], [], _, _, _, _ => rfl
  | [], _ :: _, _, _, _, hlen => by simp at hlen
  | _ :: _, [], _, _, _, hlen => by simp at hlen
  | i :: is, d :: ds, old, hnd, hpos, hlen => by
      have hi1 : 1 ≤ i := hpos i (List.mem_cons_self i is)
      have hnotmem : i ∉ is := (List.nodup_cons.mp hnd).1
      have hndtl : is.Nodup := (List.nodup_cons.mp hnd).2
      have hhead : applyScatter (i :: is) (d :: ds) old (i - 1) = d := by
        simp [applyScatter, Nat.sub_add_cancel hi1]
      have htail : is.map (fun x => applyScatter (i :: is) (d :: ds) old (x - 1))
          = is.map (fun x => applyScatter is ds old (x - 1)) := by
        apply List.map_congr_left
        intro x hx
        have hx1 : 1 ≤ x := hpos x (List.mem_cons_of_mem i hx)
        have hxi : x ≠ i := fun h => hnotmem (h ▸ hx)
        simp [applyScatter, Nat.sub_add_cancel hx1, hxi]
      rw [List.map_cons, hhead, htail,
        applyScatter_map_eq is ds old hndtl
          (fun x hx => hpos x (List.mem_cons_of_mem i hx)) (by simpa using hlen)]

/-- The all-atom id list has no duplicates. -/
theorem allIds_nodup (n : Nat) : (allIds n).Nodup :=
  (List.nodup_range n).map (add_left_injective 1)

/-- Every id in the all-atom id list is at least 1. -/
theorem allIds_pos (n : Nat) : ∀ i ∈ allIds n, 1 ≤ i := by
  intro i hi
  simp only [allIds, List.mem_map, List.mem_range] at hi
  omega

/-- The all-atom id list has one entry per atom. -/
theorem allIds_length (n : Nat) : (allIds n).length = n := by
  simp [allIds]

/-- C1: for every atom-style quantity name and data array, gather_atoms after
scatter_atoms returns the scattered values at the corresponding atom
positions, and the same round-trip holds when both calls are restricted to
the same ids list. -/
theorem scatter_gather_roundtrip (l : LammpsBase) (name : String)
    (data data2 : List (List ℚ)) (ids : List Nat)
    (h1 : data.length = l.get_natoms)
    (h2 : data2.length = ids.length) (h3 : ids.Nodup)
    (h4 : ∀ i ∈ ids, 1 ≤ i) :
    (l.scatter_atoms name data).gather_atoms name = data ∧
    (l.scatter_atoms_ids name data2 ids).gather_atoms_ids name ids = data2 := by
  constructor
  · simp only [LammpsBase.gather_atoms, LammpsBase.scatter_atoms,
      Engine.gatherIds, Engine.scatterIds, eq_self_iff_true, if_true]
    exact applyScatter_map_eq _ _ _ (allIds_nodup _) (allIds_pos _)
      (by rw [allIds_length]; exact h1)
  · simp only [LammpsBase.gather_atoms_ids, LammpsBase.scatter_atoms_ids,
      Engine.gatherIds, Engine.scatterIds, eq_self_iff_true, if_true]
    exact applyScatter_map_eq _ _ _ h3 h4 h2

/-- Witness for C1 at a concrete instance: a full-length array scattered over
all 256 atoms and a 2-row array scattered over ids [1, 2]. -/
theorem scatter_gather_roundtrip_witness :
    (simpleBase.scatter_atoms "f" (List.replicate 256 [0])).gather_atoms "f"
        = List.replicate 256 [0] ∧
    (simpleBase.scatter_atoms_ids "f" [[5], [7]] [1, 2]).gather_atoms_ids "f" [1, 2]
        = [[5], [7]] :=
  scatter_gather_roundtrip simpleBase "f" (List.replicate 256 [0]) [[5], [7]] [1, 2]
    (by rw [List.length_replicate]; rfl)
    (by simp) (by decide) (by decide)

/-- C2: file() with a path that names no existing input file surfaces the
engine's own FileNotFoundError unchanged: the wrapper call returns exactly
the error the engine's file call produced. -/
theorem file_not_found_surfaced (l : LammpsBase) (fs : List String)
    (path : String) (h : path ∉ fs) :
    l.file fs path = Except.error (LmpError.fileNotFoundError path) ∧
    l.engine.runFile fs path = Except.error (LmpError.fileNotFoundError path) := by
  constructor
  · simp [LammpsBase.file, Engine.runFile, Except.map, h]
  · simp [Engine.runFile, h]

/-- Witness for C2: a nonexistent path on a filesystem holding only the fixed
input script. -/
theorem file_not_found_surfaced_witness :
    simpleBase.file ["in.simple"] "file_does_not_exist.txt"
      = Except.error (LmpError.fileNotFoundError "file_does_not_exist.txt") :=
  (file_not_found_surfaced simpleBase ["in.simple"] "file_does_not_exist.txt"
    (by decide)).1

/-- C3: after loading the fixed input script in.simple the simulation holds
exactly 256 atoms, and every per-atom accessor agrees on that count:
extract_atom "f", extract_atom "id" and gather_atoms "f" all have length 256
and get_natoms() returns 256 (and the agreement holds for every name). -/
theorem simple_natoms_consistent (l : LammpsBase) :
    ∃ b, l.file ["in.simple"] "in.simple" = Except.ok b ∧
      b.get_natoms = 256 ∧
      (b.extract_atom "f").length = 256 ∧
      (b.extract_atom "id").length = 256 ∧
      (b.gather_atoms "f").length = 256 ∧
      ∀ name, (b.extract_atom name).length = b.get_natoms ∧
        (b.gather_atoms name).length = b.get_natoms := by
  refine ⟨{ l with engine := simpleState }, ?_, rfl, ?_, ?_, ?_, ?_⟩
  · simp [LammpsBase.file, Engine.runFile, runScript, Except.map]
  · simp [LammpsBase.extract_atom, simpleState]
  · simp [LammpsBase.extract_atom, simpleState]
  · simp [LammpsBase.gather_atoms, Engine.gatherIds, allIds, simpleState]
  · intro name
    constructor
    · simp [LammpsBase.extract_atom, LammpsBase.get_natoms]
    · simp [LammpsBase.gather_atoms, Engine.gatherIds, allIds, LammpsBase.get_natoms]

/-- C4: extract_compute result shapes are dictated by the style/type
arguments: style 0 / type 0 returns a single scalar and style 1 / type 1
returns a per-atom array with one entry per atom (length 256 for the fixed
input script). -/
theorem extract_compute_shape (l : LammpsBase) (name : String) :
    (∃ q, l.extract_compute name 0 0 = LValue.num q) ∧
    (∃ a, l.extract_compute name 1 1 = LValue.arr a ∧ a.length = l.get_natoms) ∧
    (∃ q, simpleBase.extract_compute "1" 0 0 = LValue.num q) ∧
    (∃ a, simpleBase.extract_compute "ke" 1 1 = LValue.arr a ∧ a.length = 256) := by
  refine ⟨⟨_, rfl⟩, ⟨_, rfl, ?_⟩, ⟨_, rfl⟩, ⟨_, rfl, ?_⟩⟩
  · simp [LammpsBase.get_natoms]
  · simp [simpleBase, simpleState]

/-- C5: extract_box always returns a 7-element box description, and reset_box
updates the box so that a subsequent extract_box reflects the new bounds
(concretely, after reset_box [0,0,0] [8,8,8] 0 0 0 the lower bound is 0 and
the upper bound is 8). -/
theorem extract_box_reset_box (l : LammpsBase) (lo hi : List ℚ)
    (xy yz xz : ℚ) :
    l.extract_box.length = 7 ∧
    (l.reset_box lo hi xy yz xz).extract_box.getD 0 LValue.none = LValue.arr lo ∧
    (l.reset_box lo hi xy yz xz).extract_box.getD 1 LValue.none = LValue.arr hi ∧
    (simpleBase.reset_box [0, 0, 0] [8, 8, 8] 0 0 0).extract_box.getD 0 LValue.none
      = LValue.arr [0, 0, 0] ∧
    (simpleBase.reset_box [0, 0, 0] [8, 8, 8] 0 0 0).extract_box.getD 1 LValue.none
      = LValue.arr [8, 8, 8] :=
  ⟨rfl, rfl, rfl, rfl, rfl⟩

/-- C6: extract_variable result shape follows the style argument: style 0
returns a global scalar and style 1 a per-atom array with one entry per atom;
for the fixed input script the "tt" scalar rounds to 1.13 and the "fx" array
has 256 entries whose first entry rounds to -0.26. -/
theorem extract_variable_shape (l : LammpsBase) (name group : String) :
    (∃ q, l.extract_variable name group 0 = LValue.num q) ∧
    (∃ a, l.extract_variable name group 1 = LValue.arr a ∧
      a.length = l.get_natoms) ∧
    (∃ q, simpleBase.extract_variable "tt" "all" 0 = LValue.num q ∧
      round2 q = 113/100) ∧
    (∃ a, simpleBase.extract_variable "fx" "all" 1 = LValue.arr a ∧
      a.length = 256 ∧ round2 (a.getD 0 0) = -26/100) := by
  refine ⟨⟨_, rfl⟩, ⟨_, rfl, ?_⟩, ⟨ttSimple, ?_, ?_⟩, ⟨_, rfl, ?_, ?_⟩⟩
  · simp [LammpsBase.get_natoms]
  · simp [LammpsBase.extract_variable, simpleBase, simpleState]
  · unfold round2 ttSimple
    rw [round_eq]
    norm_num
  · simp [simpleBase, simpleState]
  · show round2 (((List.range 256).map
        (simpleState.varPerAtom "fx" "all")).getD 0 0) = -26/100
    rw [List.getD_eq_getElem?_getD, List.getElem?_map,
      List.getElem?_range (by norm_num)]
    show round2 (simpleState.varPerAtom "fx" "all" 0) = -26/100
    simp only [simpleState]
    unfold round2
    rw [round_eq]
    norm_num [fval]

/-- C7: constructing LammpsBase with cmdargs ["-cite", path] passes the
command-line arguments through to the engine, which writes a citation file at
path: after construction the path exists on the filesystem. -/
theorem cite_file_written (cores : Nat) (oversubscribe : Bool)
    (wd path : String) (fs : List String) :
    path ∈ (LammpsBase.create cores oversubscribe wd ["-cite", path] fs).2 := by
  show path ∈ engineWrittenFiles ["-cite", path] fs
  show path ∈ path :: fs
  exact List.mem_cons_self path fs

/-- C8: the capability properties forward the engine build's feature flags
unchanged; for the wrapped build, has_exceptions, has_gzip_support,
has_png_support and has_jpeg_support are true and has_ffmpeg_support is
false. -/
theorem capability_flags (l : LammpsBase) :
    (l.has_exceptions = l.engine.build.hasExceptions ∧
     l.has_gzip_support = l.engine.build.hasGzipSupport ∧
     l.has_png_support = l.engine.build.hasPngSupport ∧
     l.has_jpeg_support = l.engine.build.hasJpegSupport ∧
     l.has_ffmpeg_support = l.engine.build.hasFfmpegSupport) ∧
    simpleBase.has_exceptions = true ∧
    simpleBase.has_gzip_support = true ∧
    simpleBase.has_png_support = true ∧
    simpleBase.has_jpeg_support = true ∧
    simpleBase.has_ffmpeg_support = false :=
  ⟨⟨rfl, rfl, rfl, rfl, rfl⟩, rfl, rfl, rfl, rfl, rfl⟩

/-- C9: for every LammpsBase instance the natoms property and the
get_natoms() method return the same value; the property is a pure alias that
only reads the engine's atom count. -/
theorem natoms_alias_get_natoms (l : LammpsBase) :
    l.natoms = l.get_natoms ∧ l.get_natoms = l.engine.natoms :=
  ⟨rfl, rfl⟩

/-- C10: extract_global is consistent with extract_box: "boxlo" and "boxhi"
equal the first and second elements of extract_box, and for the fixed input
script they are [0, 0, 0] and three copies of 6.718384765530029. -/
theorem extract_global_box_consistent (l : LammpsBase) :
    l.extract_global "boxlo" = l.extract_box.getD 0 LValue.none ∧
    l.extract_global "boxhi" = l.extract_box.getD 1 LValue.none ∧
    simpleBase.extract_global "boxlo" = LValue.arr [0, 0, 0] ∧
    simpleBase.extract_global "boxhi"
      = LValue.arr [boxhiSimple, boxhiSimple, boxhiSimple] := by
  refine ⟨?_, ?_, ?_, ?_⟩ <;>
    simp [LammpsBase.extract_global, LammpsBase.extract_box, simpleBase, simpleState]
